import Mathlib

/-!
Shallow embedding of the Scaleway Ansible resource modules
(`scaleway_function_domain`, `scaleway_iam_application`,
`scaleway_mnq_credential`, `scaleway_vpcgw_pat_rule`) and proofs about the
reconciliation behaviour described in the specification.

Each Python module function (`create`, `delete`) is translated into a Lean
function over an explicit parameter dictionary and an abstract provider-API
record; the function returns the terminal outcome of the invocation
(`exit_json` / `fail_json` / an uncaught Python exception) together with the
ordered trace of provider SDK calls it issued.
-/

set_option autoImplicit false

namespace Scaleway

/-- A Python value as it appears in `module.params`: Ansible coerces the
declared parameters to strings, ints or dicts (the one dict-typed parameter,
`permissions`, is opaque to every module, so its entries are modelled as
string pairs); `None` is represented one level up, by `Option Val`. -/
inductive Val where
  | str (s : String)
  | int (n : Int)
  | vdict (kvs : List (String × String))
  deriving DecidableEq, Repr

/-- The type of `module.params`: a Python dict from parameter name to value, where a
stored `none` is Python `None` (declared but not supplied). -/
abbrev Params := List (String × Option Val)

namespace Params

/-- Python dict lookup that distinguishes a missing key (`none`) from a key
stored with value `None` (`some none`). -/
def lookup (ps : Params) (k : String) : Option (Option Val) :=
  match ps.find? (fun kv => kv.1 == k) with
  | some kv => some kv.2
  | none => none

/-- Whether the dict has the key at all. -/
def hasKey (ps : Params) (k : String) : Bool :=
  ps.any (fun kv => kv.1 == k)

/-- Python `d.pop(k, None)`: returns the stored value (or `None` when the key is
missing or stored as `None`) and the dict without the key. -/
def pop (ps : Params) (k : String) : Option Val × Params :=
  match ps.lookup k with
  | some v => (v, ps.filter (fun kv => kv.1 != k))
  | none => (none, ps)

/-- A Python exception escaping a module function uncaught. -/
inductive PyErr where
  | keyError (key : String)
  | scwExc (status : Nat)
  deriving DecidableEq, Repr

/-- Python `d[k]`: raises `KeyError` when the key is missing. -/
def getItem (ps : Params) (k : String) : Except PyErr (Option Val) :=
  match ps.lookup k with
  | some v => .ok v
  | none => .error (.keyError k)

/-- The dict comprehension of the source that keeps exactly the entries
whose value is not `None`. -/
def notNone (ps : Params) : List (String × Val) :=
  ps.filterMap (fun kv => match kv.2 with
    | some v => some (kv.1, v)
    | none => none)

end Params

export Params (PyErr)

/-- A remote resource snapshot as returned by the provider SDK: always has an
`id`; `name` and the remaining fields as stored by the provider. -/
structure Resource where
  id : String
  name : String := ""
  fields : List (String × Val) := []
  deriving DecidableEq, Repr

/-- The terminal outcome of one module invocation: a successful
`module.exit_json` (with its `changed` flag, optional `data` payload and
optional `msg`), a `module.fail_json`, or an uncaught Python exception. -/
inductive Outcome where
  | exitJson (changed : Bool) (data : Option Resource) (msg : Option String)
  | failJson (msg : String)
  | raised (e : PyErr)
  deriving DecidableEq, Repr

/-- The `changed` flag of an `exit_json` outcome, when the invocation
terminated with one. -/
def Outcome.changedOf : Outcome → Option Bool
  | .exitJson ch _ _ => some ch
  | _ => none

/-- One provider SDK call, with the arguments the module passed.  The create
calls of `scaleway_iam_application` and `scaleway_vpcgw_pat_rule` forward
`**module.params` unfiltered (so `None` values are passed along, hence
`Params`); the other two modules forward only the non-`None` entries. -/
inductive ApiCall where
  | getDomain (domain_id : Val) (region : Option Val)
  | createDomain (kwargs : List (String × Val))
  | waitForDomain (domain_id : String) (region : Option Val)
  | deleteDomain (domain_id : String) (region : Option Val)
  | getApplication (application_id : Val)
  | createApplication (kwargs : Params)
  | deleteApplication (application_id : String)
  | getCredential (credential_id : Val) (region : Option Val)
  | listCredentialsAll (name : Val) (region : Option Val)
  | createCredential (kwargs : List (String × Val))
  | deleteCredential (credential_id : String) (region : Option Val)
  | getPatRule (pat_rule_id : Val)
  | createPatRule (kwargs : Params)
  | deletePatRule (pat_rule_id : String)
  deriving DecidableEq, Repr

/-- Whether the call mutates remote state (a create or a delete); gets,
lists and waits are reads. -/
def ApiCall.isMutating : ApiCall → Bool
  | .createDomain _ => true
  | .createApplication _ => true
  | .createCredential _ => true
  | .createPatRule _ => true
  | .deleteDomain _ _ => true
  | .deleteApplication _ => true
  | .deleteCredential _ _ => true
  | .deletePatRule _ => true
  | _ => false

/-- Whether a call trace contains any mutating (create/delete) call. -/
def mutates (tr : List ApiCall) : Bool :=
  tr.any ApiCall.isMutating

/-- The `FunctionV1Beta1API` operations used by `scaleway_function_domain`,
as an abstract single-invocation oracle: each operation is called at most
once per invocation, so pure response functions capture any provider
behaviour.  An `Except.error st` is the SDK raising `ScalewayException`
with `status_code = st`.  The `region` argument is the effective region
value (`none` both when the kwarg is omitted and when it is `None`, matching
the SDK default). -/
structure FnDomainApi where
  get_domain : Val → Option Val → Except Nat Resource
  create_domain : List (String × Val) → Except Nat Resource
  wait_for_domain : String → Option Val → Except Nat Resource
  delete_domain : String → Option Val → Except Nat Unit

/-- Embedding of `scaleway_function_domain.create`: pops `"id"` (the declared identity
parameter is `domain_id`, so in a real module run this pop always yields
`None`); when an id is present, fetches and returns unchanged; otherwise, in
check mode reports `changed=true`, else creates with the non-`None`
parameters, waits for the domain, and reports `changed=true`. -/
def functionDomainCreate (api : FnDomainApi) (check_mode : Bool) (ps0 : Params) :
    Outcome × List ApiCall :=
  match ps0.pop "id" with
  | (some idv, _) =>
    match api.get_domain idv none with
    | .error st => (.raised (.scwExc st), [.getDomain idv none])
    | .ok resource =>
      if check_mode then (.exitJson false none none, [.getDomain idv none])
      else (.exitJson false (some resource) none, [.getDomain idv none])
  | (none, ps) =>
    if check_mode then (.exitJson true none none, [])
    else
      match api.create_domain ps.notNone with
      | .error st => (.raised (.scwExc st), [.createDomain ps.notNone])
      | .ok resource =>
        match ps.getItem "region" with
        | .error e => (.raised e, [.createDomain ps.notNone])
        | .ok region =>
          match api.wait_for_domain resource.id region with
          | .error st =>
            (.raised (.scwExc st),
              [.createDomain ps.notNone, .waitForDomain resource.id region])
          | .ok resource2 =>
            (.exitJson true (some resource2) none,
              [.createDomain ps.notNone, .waitForDomain resource.id region])

/-- Embedding of `scaleway_function_domain.delete`: reads `module.params["id"]` with a
plain subscript (raising `KeyError` when the key is absent, which it always
is in a real module run, the declared parameter being `domain_id`), requires
the id, fetches the resource, honours check mode, deletes, waits for the
domain to disappear treating a 404 from the wait as success (re-raising any
other `ScalewayException`), and reports `changed=true` with a message naming
the deleted id. -/
def functionDomainDelete (api : FnDomainApi) (check_mode : Bool) (ps0 : Params) :
    Outcome × List ApiCall :=
  match ps0.getItem "id" with
  | .error e => (.raised e, [])
  | .ok none => (.failJson "id is required", [])
  | .ok (some idv) =>
    match ps0.getItem "region" with
    | .error e => (.raised e, [])
    | .ok region =>
      match api.get_domain idv region with
      | .error st => (.raised (.scwExc st), [.getDomain idv region])
      | .ok resource =>
        if check_mode then (.exitJson true none none, [.getDomain idv region])
        else
          match api.delete_domain resource.id region with
          | .error st =>
            (.raised (.scwExc st),
              [.getDomain idv region, .deleteDomain resource.id region])
          | .ok _ =>
            match api.wait_for_domain resource.id region with
            | .error st =>
              if st ≠ 404 then
                (.raised (.scwExc st),
                  [.getDomain idv region, .deleteDomain resource.id region,
                    .waitForDomain resource.id region])
              else
                (.exitJson true none
                    (some ("function\x27s domain " ++ resource.id ++ " deleted")),
                  [.getDomain idv region, .deleteDomain resource.id region,
                    .waitForDomain resource.id region])
            | .ok _ =>
              (.exitJson true none
                  (some ("function\x27s domain " ++ resource.id ++ " deleted")),
                [.getDomain idv region, .deleteDomain resource.id region,
                  .waitForDomain resource.id region])

/-- The `IamV1Alpha1API` operations used by `scaleway_iam_application`.
`create_application` receives `**module.params` unfiltered. -/
structure IamApi where
  get_application : Val → Except Nat Resource
  create_application : Params → Except Nat Resource
  delete_application : String → Except Nat Unit

/-- Embedding of `scaleway_iam_application.create`: pops `"id"`; when present, fetches and
returns unchanged; otherwise, in check mode reports `changed=true`, else
creates with `**module.params` (no `None` filtering) and reports
`changed=true`. -/
def iamApplicationCreate (api : IamApi) (check_mode : Bool) (ps0 : Params) :
    Outcome × List ApiCall :=
  match ps0.pop "id" with
  | (some idv, _) =>
    match api.get_application idv with
    | .error st => (.raised (.scwExc st), [.getApplication idv])
    | .ok resource =>
      if check_mode then (.exitJson false none none, [.getApplication idv])
      else (.exitJson false (some resource) none, [.getApplication idv])
  | (none, ps) =>
    if check_mode then (.exitJson true none none, [])
    else
      match api.create_application ps with
      | .error st => (.raised (.scwExc st), [.createApplication ps])
      | .ok resource => (.exitJson true (some resource) none, [.createApplication ps])

/-- Embedding of `scaleway_iam_application.delete`: reads `module.params["id"]` and
`module.params["name"]` (the latter unused thereafter), requires the id,
fetches, honours check mode, deletes, and reports `changed=true` with a
message naming the deleted application. -/
def iamApplicationDelete (api : IamApi) (check_mode : Bool) (ps0 : Params) :
    Outcome × List ApiCall :=
  match ps0.getItem "id" with
  | .error e => (.raised e, [])
  | .ok id? =>
    match ps0.getItem "name" with
    | .error e => (.raised e, [])
    | .ok _name =>
      match id? with
      | none => (.failJson "id is required", [])
      | some idv =>
        match api.get_application idv with
        | .error st => (.raised (.scwExc st), [.getApplication idv])
        | .ok resource =>
          if check_mode then (.exitJson true none none, [.getApplication idv])
          else
            match api.delete_application resource.id with
            | .error st =>
              (.raised (.scwExc st),
                [.getApplication idv, .deleteApplication resource.id])
            | .ok _ =>
              (.exitJson true none
                  (some ("iam\x27s application " ++ resource.name ++ " (" ++
                    resource.id ++ ") deleted")),
                [.getApplication idv, .deleteApplication resource.id])

/-- The `MnqV1Alpha1API` operations used by `scaleway_mnq_credential`. -/
structure MnqApi where
  get_credential : Val → Option Val → Except Nat Resource
  list_credentials_all : Val → Option Val → List Resource
  create_credential : List (String × Val) → Except Nat Resource
  delete_credential : String → Option Val → Except Nat Unit

/-- Embedding of `scaleway_mnq_credential.create`: pops `"id"` (the declared identity
parameter is `credential_id`, so in a real module run this pop always yields
`None`); when an id is present, fetches and returns unchanged; otherwise, in
check mode reports `changed=true`, else creates with the non-`None`
parameters and reports `changed=true`. -/
def mnqCredentialCreate (api : MnqApi) (check_mode : Bool) (ps0 : Params) :
    Outcome × List ApiCall :=
  match ps0.pop "id" with
  | (some idv, _) =>
    match api.get_credential idv none with
    | .error st => (.raised (.scwExc st), [.getCredential idv none])
    | .ok resource =>
      if check_mode then (.exitJson false none none, [.getCredential idv none])
      else (.exitJson false (some resource) none, [.getCredential idv none])
  | (none, ps) =>
    if check_mode then (.exitJson true none none, [])
    else
      match api.create_credential ps.notNone with
      | .error st => (.raised (.scwExc st), [.createCredential ps.notNone])
      | .ok resource =>
        (.exitJson true (some resource) none, [.createCredential ps.notNone])

/-- The shared tail of `scaleway_mnq_credential.delete` once a resource has
been resolved (by id or by a unique name match): honour check mode, delete,
and report `changed=true` with a message naming the credential.  The source
message templates lack the `f` prefix, so the literal text `\x7bname\x7d`
appears; the deletion confirmation does use an f-string. -/
def mnqDeleteResolved (api : MnqApi) (check_mode : Bool) (ps : Params)
    (resource : Resource) (pre : List ApiCall) : Outcome × List ApiCall :=
  if check_mode then (.exitJson true none none, pre)
  else
    match ps.getItem "region" with
    | .error e => (.raised e, pre)
    | .ok region =>
      match api.delete_credential resource.id region with
      | .error st =>
        (.raised (.scwExc st), pre ++ [.deleteCredential resource.id region])
      | .ok _ =>
        (.exitJson true none
            (some ("mnq\x27s credential " ++ resource.name ++ " (" ++
              resource.id ++ ") deleted")),
          pre ++ [.deleteCredential resource.id region])

/-- Embedding of `scaleway_mnq_credential.delete`: pops `"id"` (always `None` in a real
module run, the declared parameter being `credential_id`) and `"name"`; with
an id it fetches by id; with a name it lists credentials by name, exiting
non-fatally (default `changed=false`) on zero or multiple matches; with
neither it fails with `"id is required"`; a unique resolution continues with
the shared delete tail. -/
def mnqCredentialDelete (api : MnqApi) (check_mode : Bool) (ps0 : Params) :
    Outcome × List ApiCall :=
  match ps0.pop "id" with
  | (some idv, ps1) =>
    match (ps1.pop "name").2.getItem "region" with
    | .error e => (.raised e, [])
    | .ok region =>
      match api.get_credential idv region with
      | .error st => (.raised (.scwExc st), [.getCredential idv region])
      | .ok resource =>
        mnqDeleteResolved api check_mode (ps1.pop "name").2 resource
          [.getCredential idv region]
  | (none, ps1) =>
    match ps1.pop "name" with
    | (some namev, ps2) =>
      match ps2.getItem "region" with
      | .error e => (.raised e, [])
      | .ok region =>
        match api.list_credentials_all namev region with
        | [] =>
          (.exitJson false none (some "No credential found with name \x7bname\x7d"),
            [.listCredentialsAll namev region])
        | [resource] =>
          mnqDeleteResolved api check_mode ps2 resource
            [.listCredentialsAll namev region]
        | _ :: _ :: _ =>
          (.exitJson false none
              (some "More than one credential found with name \x7bname\x7d"),
            [.listCredentialsAll namev region])
    | (none, _) => (.failJson "id is required", [])

/-- The `VpcgwV1API` operations used by `scaleway_vpcgw_pat_rule`.
`create_pat_rule` receives `**module.params` unfiltered. -/
structure VpcgwApi where
  get_pat_rule : Val → Except Nat Resource
  create_pat_rule : Params → Except Nat Resource
  delete_pat_rule : String → Except Nat Unit

/-- Embedding of `scaleway_vpcgw_pat_rule.create`: pops `"id"` (here `id` really is a
declared parameter); when present, fetches and returns unchanged; otherwise,
in check mode reports `changed=true`, else creates with `**module.params`
(no `None` filtering) and reports `changed=true`. -/
def vpcgwPatRuleCreate (api : VpcgwApi) (check_mode : Bool) (ps0 : Params) :
    Outcome × List ApiCall :=
  match ps0.pop "id" with
  | (some idv, _) =>
    match api.get_pat_rule idv with
    | .error st => (.raised (.scwExc st), [.getPatRule idv])
    | .ok resource =>
      if check_mode then (.exitJson false none none, [.getPatRule idv])
      else (.exitJson false (some resource) none, [.getPatRule idv])
  | (none, ps) =>
    if check_mode then (.exitJson true none none, [])
    else
      match api.create_pat_rule ps with
      | .error st => (.raised (.scwExc st), [.createPatRule ps])
      | .ok resource => (.exitJson true (some resource) none, [.createPatRule ps])

/-- Embedding of `scaleway_vpcgw_pat_rule.delete`: reads `module.params["id"]`, requires
the id, fetches, honours check mode, deletes, and reports `changed=true`
with a message naming the id of the deleted rule. -/
def vpcgwPatRuleDelete (api : VpcgwApi) (check_mode : Bool) (ps0 : Params) :
    Outcome × List ApiCall :=
  match ps0.getItem "id" with
  | .error e => (.raised e, [])
  | .ok none => (.failJson "id is required", [])
  | .ok (some idv) =>
    match api.get_pat_rule idv with
    | .error st => (.raised (.scwExc st), [.getPatRule idv])
    | .ok resource =>
      if check_mode then (.exitJson true none none, [.getPatRule idv])
      else
        match api.delete_pat_rule resource.id with
        | .error st =>
          (.raised (.scwExc st), [.getPatRule idv, .deletePatRule resource.id])
        | .ok _ =>
          (.exitJson true none
              (some ("vpcgw\x27s pat_rule " ++ resource.id ++ " deleted")),
            [.getPatRule idv, .deletePatRule resource.id])

/-! ### A concrete Provider API collaborator for `iam_application`

The provider is an external collaborator (spec §6): `create` assigns a fresh
id and stores the resource, `get` fetches by id with 404 for a miss, and
`delete` removes by id.  This concrete state machine lets two successive
module invocations be run against an evolving provider, which is what the
idempotence property quantifies over. -/

/-- The provider-side store of IAM applications, plus a fresh-id counter. -/
structure IamState where
  apps : List Resource
  nextId : Nat
  deriving DecidableEq, Repr

/-- The `name` value the provider records from the create kwargs (empty when
absent, matching an opaque server default). -/
def iamNameOf (kwargs : Params) : String :=
  match kwargs.lookup "name" with
  | some (some (.str s)) => s
  | _ => ""

/-- Provider semantics of `get_application`: fetch by id, status 404 on a
miss. -/
def iamGetApplication (s : IamState) (idv : Val) : Except Nat Resource :=
  match s.apps.find? (fun r => Val.str r.id == idv) with
  | some r => .ok r
  | none => .error 404

/-- Provider semantics of `create_application`: allocate a fresh id, store
the resource, return it. -/
def iamCreateApplication (s : IamState) (kwargs : Params) : Resource × IamState :=
  (⟨"app-" ++ toString s.nextId, iamNameOf kwargs, kwargs.notNone⟩,
    ⟨s.apps ++ [⟨"app-" ++ toString s.nextId, iamNameOf kwargs, kwargs.notNone⟩],
      s.nextId + 1⟩)

/-- Provider semantics of `delete_application`: remove by id, status 404
when no such application exists. -/
def iamDeleteApplication (s : IamState) (idS : String) : Except Nat Unit × IamState :=
  if s.apps.any (fun r => r.id == idS) then
    (.ok (), ⟨s.apps.filter (fun r => r.id != idS), s.nextId⟩)
  else (.error 404, s)

/-- The pure single-invocation oracle presented by a provider state.  Every
module run issues each operation at most once, and reads precede the (at
most one, final) mutating call, so responses computed against the initial
state coincide with the stateful execution. -/
def iamApiOf (s : IamState) : IamApi :=
  { get_application := fun idv => iamGetApplication s idv
  , create_application := fun kwargs => .ok (iamCreateApplication s kwargs).1
  , delete_application := fun idS => (iamDeleteApplication s idS).1 }

/-- Replay one SDK call against the provider state (reads leave it
unchanged). -/
def IamState.apply (s : IamState) : ApiCall → IamState
  | .createApplication kwargs => (iamCreateApplication s kwargs).2
  | .deleteApplication idS => (iamDeleteApplication s idS).2
  | _ => s

/-- One full `present` invocation of `scaleway_iam_application` against a
concrete provider state: run the `create` of the module, then replay its call
trace into the provider. -/
def iamPresentRun (s : IamState) (check_mode : Bool) (ps : Params) :
    Outcome × IamState :=
  match iamApplicationCreate (iamApiOf s) check_mode ps with
  | (o, tr) => (o, tr.foldl IamState.apply s)

/-! ### Concrete inputs for the idempotence scenario -/

/-- An empty IAM provider store. -/
def iamS0 : IamState := ⟨[], 0⟩

/-- A typical `present` parameter set for `scaleway_iam_application` after
`core` has popped `state` and the client/waitable options: the caller
supplies `description` and `name` and omits `id` and `organization_id`. -/
def iamP : Params :=
  [("id", none), ("description", some (.str "my app")),
    ("name", some (.str "app")), ("organization_id", none)]

/-- Predicate `dryRunOk check real`: the check-mode result `check` issues no mutating
call, and its `changed` flag (if it exits with one) equals whether the real
run trace mutates. -/
def dryRunOk (check real : Outcome × List ApiCall) : Prop :=
  mutates check.2 = false ∧
    (check.1.changedOf = none ∨ check.1.changedOf = some (mutates real.2))

/-- Whether a call is a fetch of an existing resource (the lookup the
fetch-and-return branch of the present path would issue). -/
def ApiCall.isFetch : ApiCall → Bool
  | .getDomain _ _ => true
  | .getApplication _ => true
  | .getCredential _ _ => true
  | .getPatRule _ => true
  | _ => false

/-! ### Concrete provider fixtures and parameter sets used by the
counterexamples and witnesses. -/

/-- An IAM provider on which every lookup misses (status 404). -/
def iamApi404 : IamApi :=
  { get_application := fun _ => .error 404
  , create_application := fun _ => .error 500
  , delete_application := fun _ => .error 500 }

/-- An IAM provider that rejects the create call with status 400. -/
def iamApiReject : IamApi :=
  { get_application := fun _ => .error 404
  , create_application := fun _ => .error 400
  , delete_application := fun _ => .error 400 }

/-- Parameters of an `absent` invocation of `scaleway_iam_application` with an explicit
`id`. -/
def iamDelP : Params :=
  [("id", some (.str "a-1")), ("name", none),
    ("description", some (.str "my app")), ("organization_id", none)]

/-- An MNQ provider whose name-based listing returns two credentials with
the same name. -/
def mnqApiAmb : MnqApi :=
  { get_credential := fun _ _ => .error 404
  , list_credentials_all := fun _ _ => [⟨"c-1", "dup", []⟩, ⟨"c-2", "dup", []⟩]
  , create_credential := fun _ => .error 500
  , delete_credential := fun _ _ => .error 500 }

/-- Parameters of an `absent` invocation of `scaleway_mnq_credential` resolving by name
(the declared parameters of the module after `core` has popped `state` and the
client/waitable options; note there is no `"id"` key — the identity
parameter is declared as `credential_id`). -/
def mnqDelP : Params :=
  [("credential_id", none), ("namespace_id", some (.str "ns-1")),
    ("region", some (.str "fr-par")), ("name", some (.str "dup")),
    ("permissions", none)]

/-- Parameters of an `absent` invocation of `scaleway_mnq_credential` with neither an id nor
a name. -/
def mnqNoNameP : Params :=
  [("credential_id", none), ("namespace_id", some (.str "ns-1")),
    ("region", none), ("name", none), ("permissions", none)]

/-- A function-domain provider holding domain `d-1`: gets succeed, deletes
succeed, and the wait after a delete reports 404 (the domain is gone). -/
def fnApiDel404 : FnDomainApi :=
  { get_domain := fun _ _ => .ok ⟨"d-1", "", []⟩
  , create_domain := fun _ => .error 500
  , wait_for_domain := fun _ _ => .error 404
  , delete_domain := fun _ _ => .ok () }

/-- Delete parameters for `scaleway_function_domain` carrying an `"id"` key
(reachable only by calling `delete` directly: the argument spec of the module
declares `domain_id`, not `id`). -/
def fnDelP : Params :=
  [("id", some (.str "d-1")), ("hostname", some (.str "api.example.com")),
    ("function_id", some (.str "f-1")), ("region", some (.str "fr-par"))]

/-- The actual parameter dict a `scaleway_function_domain` invocation has
after `core` pops `state` and the client/waitable options: the declared keys
are `domain_id`, `hostname`, `function_id` and `region` — there is no
`"id"` key. -/
def fnModuleP : Params :=
  [("domain_id", some (.str "d-1")), ("hostname", some (.str "api.example.com")),
    ("function_id", some (.str "f-1")), ("region", some (.str "fr-par"))]

/-- Delete parameters for `scaleway_function_domain` with no identity at
all: `domain_id` declared but unset, and (as in every real run) no `"id"`
key. -/
def fnNoIdP : Params :=
  [("domain_id", none), ("hostname", some (.str "api.example.com")),
    ("function_id", some (.str "f-1")), ("region", none)]

/-- A function-domain provider on which every operation fails, each with a
distinct status. -/
def fnApiErr : FnDomainApi :=
  { get_domain := fun _ _ => .error 500
  , create_domain := fun _ => .error 501
  , wait_for_domain := fun _ _ => .error 502
  , delete_domain := fun _ _ => .error 503 }

/-- A function-domain provider whose gets, creates and deletes succeed but
whose wait reports error status 502 (the domain never stabilises). -/
def fnApiStuck : FnDomainApi :=
  { get_domain := fun _ _ => .ok ⟨"d-1", "", []⟩
  , create_domain := fun _ => .ok ⟨"d-1", "", []⟩
  , wait_for_domain := fun _ _ => .error 502
  , delete_domain := fun _ _ => .ok () }

/-- A function-domain provider that rejects the delete call with status
503. -/
def fnApiDelRej : FnDomainApi :=
  { get_domain := fun _ _ => .ok ⟨"d-1", "", []⟩
  , create_domain := fun _ => .ok ⟨"d-1", "", []⟩
  , wait_for_domain := fun _ _ => .error 404
  , delete_domain := fun _ _ => .error 503 }

/-- An IAM provider that rejects the delete call with status 403. -/
def iamApiDelRej : IamApi :=
  { get_application := fun _ => .ok ⟨"a-1", "app", []⟩
  , create_application := fun _ => .ok ⟨"a-1", "app", []⟩
  , delete_application := fun _ => .error 403 }

/-- An MNQ provider that rejects the delete call with status 403. -/
def mnqApiDelRej : MnqApi :=
  { get_credential := fun _ _ => .ok ⟨"c-1", "dup", []⟩
  , list_credentials_all := fun _ _ => [⟨"c-1", "dup", []⟩]
  , create_credential := fun _ => .ok ⟨"c-1", "dup", []⟩
  , delete_credential := fun _ _ => .error 403 }

/-- MNQ parameters carrying an `"id"` key (reachable only by calling the
module functions directly: the declared identity parameter is
`credential_id`). -/
def mnqIdP : Params :=
  [("id", some (.str "c-1")), ("namespace_id", some (.str "ns-1")),
    ("region", some (.str "fr-par")), ("name", none), ("permissions", none)]

/-- A VPC-gateway provider on which every operation fails, each with a
distinct status. -/
def vpcgwApiErr : VpcgwApi :=
  { get_pat_rule := fun _ => .error 500
  , create_pat_rule := fun _ => .error 501
  , delete_pat_rule := fun _ => .error 503 }

/-- A VPC-gateway provider that rejects the delete call with status 403. -/
def vpcgwApiDelRej : VpcgwApi :=
  { get_pat_rule := fun _ => .ok ⟨"p-1", "", []⟩
  , create_pat_rule := fun kwargs => .ok ⟨"p-1", "", kwargs.notNone⟩
  , delete_pat_rule := fun _ => .error 403 }

/-- VPC-gateway parameters with an explicit `id` (here `id` is a genuinely
declared parameter). -/
def vpcgwIdP : Params :=
  [("id", some (.str "p-1")), ("gateway_id", some (.str "gw-1")),
    ("public_port", some (.int 2222)), ("private_ip", some (.str "10.0.0.2")),
    ("private_port", some (.int 22)), ("protocol", some (.str "tcp")),
    ("zone", none)]

/-- A VPC-gateway provider whose create stores the kwargs it was given. -/
def vpcgwApi0 : VpcgwApi :=
  { get_pat_rule := fun _ => .error 404
  , create_pat_rule := fun kwargs => .ok ⟨"pat-1", "", kwargs.notNone⟩
  , delete_pat_rule := fun _ => .ok () }

/-- Parameters of a `present` invocation of `scaleway_vpcgw_pat_rule` omitting the optional
`zone` (declared, hence present in the dict with value `None`). -/
def vpcgwP : Params :=
  [("id", none), ("gateway_id", some (.str "gw-1")),
    ("public_port", some (.int 2222)), ("private_ip", some (.str "10.0.0.2")),
    ("private_port", some (.int 22)), ("protocol", some (.str "tcp")),
    ("zone", none)]

/-- C1 counterexample: running `present` twice with the identical attribute
set `iamP` (which omits `id`, the only lookup key the code consults) yields
`changed=true` on the first invocation and `changed=true` again — not
`changed=false` — on the second, because the create path runs
unconditionally whenever `id` is absent. -/
theorem iam_present_twice_changed_again :
    (iamPresentRun iamS0 false iamP).1.changedOf = some true ∧
    (iamPresentRun (iamPresentRun iamS0 false iamP).2 false iamP).1.changedOf =
      some true ∧
    ¬ (iamPresentRun (iamPresentRun iamS0 false iamP).2 false iamP).1.changedOf =
      some false := by
  refine ⟨by decide, by decide, by decide⟩

/-- C1 amended: for every resource kind, a `present` invocation whose
attribute dict lacks an `"id"` entry — which is every real
`scaleway_function_domain`/`scaleway_mnq_credential` run and any
iam/vpcgw run omitting `id` — takes the create path and never reports
`changed=false`, whatever the provider responses; hence the second of two
invocations with identical id-less attributes also reports `changed=true`
whenever it completes, never `changed=false`.  The final conjunct shows the
scenario end to end on a concrete evolving provider: both invocations
complete with `changed=true` and a second resource is created. -/
theorem present_twice_never_unchanged :
    (∀ (api : FnDomainApi) (ps : Params) (b : Bool), (ps.pop "id").1 = none →
      (functionDomainCreate api false ps).1.changedOf = some b → b = true) ∧
    (∀ (api : IamApi) (ps : Params) (b : Bool), (ps.pop "id").1 = none →
      (iamApplicationCreate api false ps).1.changedOf = some b → b = true) ∧
    (∀ (api : MnqApi) (ps : Params) (b : Bool), (ps.pop "id").1 = none →
      (mnqCredentialCreate api false ps).1.changedOf = some b → b = true) ∧
    (∀ (api : VpcgwApi) (ps : Params) (b : Bool), (ps.pop "id").1 = none →
      (vpcgwPatRuleCreate api false ps).1.changedOf = some b → b = true) ∧
    (∀ (s : IamState) (ps : Params), (ps.pop "id").1 = none →
      ∃ r1 r2 s1 s2,
        iamPresentRun s false ps = (.exitJson true (some r1) none, s1) ∧
        iamPresentRun s1 false ps = (.exitJson true (some r2) none, s2)) := by
  refine ⟨?_, ?_, ?_, ?_, ?_⟩
  · intro api ps b hpop hch
    rcases hp : ps.pop "id" with ⟨v, ps'⟩
    rw [hp] at hpop
    subst hpop
    cases hc : api.create_domain ps'.notNone with
    | error st => simp [functionDomainCreate, hp, hc, Outcome.changedOf] at hch
    | ok r =>
      cases hr : ps'.getItem "region" with
      | error e => simp [functionDomainCreate, hp, hc, hr, Outcome.changedOf] at hch
      | ok region =>
        cases hw : api.wait_for_domain r.id region with
        | error st =>
          simp [functionDomainCreate, hp, hc, hr, hw, Outcome.changedOf] at hch
        | ok r2 =>
          simp [functionDomainCreate, hp, hc, hr, hw, Outcome.changedOf] at hch
          simp [hch]
  · intro api ps b hpop hch
    rcases hp : ps.pop "id" with ⟨v, ps'⟩
    rw [hp] at hpop
    subst hpop
    cases hc : api.create_application ps' with
    | error st => simp [iamApplicationCreate, hp, hc, Outcome.changedOf] at hch
    | ok r =>
      simp [iamApplicationCreate, hp, hc, Outcome.changedOf] at hch
      simp [hch]
  · intro api ps b hpop hch
    rcases hp : ps.pop "id" with ⟨v, ps'⟩
    rw [hp] at hpop
    subst hpop
    cases hc : api.create_credential ps'.notNone with
    | error st => simp [mnqCredentialCreate, hp, hc, Outcome.changedOf] at hch
    | ok r =>
      simp [mnqCredentialCreate, hp, hc, Outcome.changedOf] at hch
      simp [hch]
  · intro api ps b hpop hch
    rcases hp : ps.pop "id" with ⟨v, ps'⟩
    rw [hp] at hpop
    subst hpop
    cases hc : api.create_pat_rule ps' with
    | error st => simp [vpcgwPatRuleCreate, hp, hc, Outcome.changedOf] at hch
    | ok r =>
      simp [vpcgwPatRuleCreate, hp, hc, Outcome.changedOf] at hch
      simp [hch]
  · intro s ps h
    rcases hpop : ps.pop "id" with ⟨v, ps'⟩
    rw [hpop] at h
    subst h
    refine ⟨(iamCreateApplication s ps').1,
      (iamCreateApplication (iamCreateApplication s ps').2 ps').1,
      (iamCreateApplication s ps').2,
      (iamCreateApplication (iamCreateApplication s ps').2 ps').2, ?_, ?_⟩ <;>
      simp [iamPresentRun, iamApplicationCreate, hpop, iamApiOf, IamState.apply]

/-- Witness for `present_twice_never_unchanged` at the concrete scenario
`iamS0`, `iamP`, also instantiating the oracle-universal no-`changed=false`
conjunct for the vpcgw kind at a provider whose create succeeds. -/
theorem present_twice_never_unchanged_witness :
    (∃ r1 r2 s1 s2,
      iamPresentRun iamS0 false iamP = (.exitJson true (some r1) none, s1) ∧
      iamPresentRun s1 false iamP = (.exitJson true (some r2) none, s2)) ∧
    true = true :=
  ⟨present_twice_never_unchanged.2.2.2.2 iamS0 iamP (by decide),
    present_twice_never_unchanged.2.2.2.1 vpcgwApi0 vpcgwP true (by decide) rfl⟩

/-! ### Dry-run (check mode) frame lemmas, one per module function: in check
mode the call trace contains no create and no delete, and whenever the check
run exits with a `changed` flag, that flag equals whether the corresponding
real (non-check) run would issue a mutating call. -/

theorem dryRun_fnCreate (api : FnDomainApi) (ps : Params) :
    dryRunOk (functionDomainCreate api true ps) (functionDomainCreate api false ps) := by
  rcases hpop : ps.pop "id" with ⟨v, ps'⟩
  rcases v with _ | idv
  · cases hc : api.create_domain ps'.notNone with
    | error st =>
      simp [dryRunOk, functionDomainCreate, hpop, hc, mutates, ApiCall.isMutating,
        Outcome.changedOf]
    | ok r =>
      cases hr : ps'.getItem "region" with
      | error e =>
        simp [dryRunOk, functionDomainCreate, hpop, hc, hr, mutates,
          ApiCall.isMutating, Outcome.changedOf]
      | ok region =>
        cases hw : api.wait_for_domain r.id region with
        | error st =>
          simp [dryRunOk, functionDomainCreate, hpop, hc, hr, hw, mutates,
            ApiCall.isMutating, Outcome.changedOf]
        | ok r2 =>
          simp [dryRunOk, functionDomainCreate, hpop, hc, hr, hw, mutates,
            ApiCall.isMutating, Outcome.changedOf]
  · cases hget : api.get_domain idv none with
    | error st =>
      simp [dryRunOk, functionDomainCreate, hpop, hget, mutates,
        ApiCall.isMutating, Outcome.changedOf]
    | ok r =>
      simp [dryRunOk, functionDomainCreate, hpop, hget, mutates,
        ApiCall.isMutating, Outcome.changedOf]

theorem dryRun_fnDelete (api : FnDomainApi) (ps : Params) :
    dryRunOk (functionDomainDelete api true ps) (functionDomainDelete api false ps) := by
  cases hid : ps.getItem "id" with
  | error e =>
    simp [dryRunOk, functionDomainDelete, hid, mutates, Outcome.changedOf]
  | ok id? =>
    rcases id? with _ | idv
    · simp [dryRunOk, functionDomainDelete, hid, mutates, Outcome.changedOf]
    · cases hreg : ps.getItem "region" with
      | error e =>
        simp [dryRunOk, functionDomainDelete, hid, hreg, mutates, Outcome.changedOf]
      | ok region =>
        cases hget : api.get_domain idv region with
        | error st =>
          simp [dryRunOk, functionDomainDelete, hid, hreg, hget, mutates,
            ApiCall.isMutating, Outcome.changedOf]
        | ok r =>
          cases hdel : api.delete_domain r.id region with
          | error st =>
            simp [dryRunOk, functionDomainDelete, hid, hreg, hget, hdel, mutates,
              ApiCall.isMutating, Outcome.changedOf]
          | ok u =>
            cases hw : api.wait_for_domain r.id region with
            | error st =>
              by_cases h4 : st = 404 <;>
                simp [dryRunOk, functionDomainDelete, hid, hreg, hget, hdel, hw,
                  h4, mutates, ApiCall.isMutating, Outcome.changedOf]
            | ok r2 =>
              simp [dryRunOk, functionDomainDelete, hid, hreg, hget, hdel, hw,
                mutates, ApiCall.isMutating, Outcome.changedOf]

theorem dryRun_iamCreate (api : IamApi) (ps : Params) :
    dryRunOk (iamApplicationCreate api true ps) (iamApplicationCreate api false ps) := by
  rcases hpop : ps.pop "id" with ⟨v, ps'⟩
  rcases v with _ | idv
  · cases hc : api.create_application ps' with
    | error st =>
      simp [dryRunOk, iamApplicationCreate, hpop, hc, mutates, ApiCall.isMutating,
        Outcome.changedOf]
    | ok r =>
      simp [dryRunOk, iamApplicationCreate, hpop, hc, mutates, ApiCall.isMutating,
        Outcome.changedOf]
  · cases hget : api.get_application idv with
    | error st =>
      simp [dryRunOk, iamApplicationCreate, hpop, hget, mutates,
        ApiCall.isMutating, Outcome.changedOf]
    | ok r =>
      simp [dryRunOk, iamApplicationCreate, hpop, hget, mutates,
        ApiCall.isMutating, Outcome.changedOf]

theorem dryRun_iamDelete (api : IamApi) (ps : Params) :
    dryRunOk (iamApplicationDelete api true ps) (iamApplicationDelete api false ps) := by
  cases hid : ps.getItem "id" with
  | error e =>
    simp [dryRunOk, iamApplicationDelete, hid, mutates, Outcome.changedOf]
  | ok id? =>
    cases hname : ps.getItem "name" with
    | error e =>
      simp [dryRunOk, iamApplicationDelete, hid, hname, mutates, Outcome.changedOf]
    | ok n? =>
      rcases id? with _ | idv
      · simp [dryRunOk, iamApplicationDelete, hid, hname, mutates, Outcome.changedOf]
      · cases hget : api.get_application idv with
        | error st =>
          simp [dryRunOk, iamApplicationDelete, hid, hname, hget, mutates,
            ApiCall.isMutating, Outcome.changedOf]
        | ok r =>
          cases hdel : api.delete_application r.id with
          | error st =>
            simp [dryRunOk, iamApplicationDelete, hid, hname, hget, hdel, mutates,
              ApiCall.isMutating, Outcome.changedOf]
          | ok u =>
            simp [dryRunOk, iamApplicationDelete, hid, hname, hget, hdel, mutates,
              ApiCall.isMutating, Outcome.changedOf]

theorem dryRun_mnqCreate (api : MnqApi) (ps : Params) :
    dryRunOk (mnqCredentialCreate api true ps) (mnqCredentialCreate api false ps) := by
  rcases hpop : ps.pop "id" with ⟨v, ps'⟩
  rcases v with _ | idv
  · cases hc : api.create_credential ps'.notNone with
    | error st =>
      simp [dryRunOk, mnqCredentialCreate, hpop, hc, mutates, ApiCall.isMutating,
        Outcome.changedOf]
    | ok r =>
      simp [dryRunOk, mnqCredentialCreate, hpop, hc, mutates, ApiCall.isMutating,
        Outcome.changedOf]
  · cases hget : api.get_credential idv none with
    | error st =>
      simp [dryRunOk, mnqCredentialCreate, hpop, hget, mutates,
        ApiCall.isMutating, Outcome.changedOf]
    | ok r =>
      simp [dryRunOk, mnqCredentialCreate, hpop, hget, mutates,
        ApiCall.isMutating, Outcome.changedOf]

theorem dryRun_mnqDelete (api : MnqApi) (ps : Params) :
    dryRunOk (mnqCredentialDelete api true ps) (mnqCredentialDelete api false ps) := by
  rcases hpop : ps.pop "id" with ⟨v, ps1⟩
  rcases v with _ | idv
  · rcases hname : ps1.pop "name" with ⟨n, ps2⟩
    rcases n with _ | namev
    · simp [dryRunOk, mnqCredentialDelete, hpop, hname, mutates, Outcome.changedOf]
    · cases hreg : ps2.getItem "region" with
      | error e =>
        simp [dryRunOk, mnqCredentialDelete, hpop, hname, hreg, mutates,
          Outcome.changedOf]
      | ok region =>
        cases hl : api.list_credentials_all namev region with
        | nil =>
          simp [dryRunOk, mnqCredentialDelete, hpop, hname, hreg, hl, mutates,
            ApiCall.isMutating, Outcome.changedOf]
        | cons r rest =>
          cases rest with
          | nil =>
            cases hdel : api.delete_credential r.id region with
            | error st =>
              simp [dryRunOk, mnqCredentialDelete, mnqDeleteResolved, hpop, hname,
                hreg, hl, hdel, mutates, ApiCall.isMutating, Outcome.changedOf]
            | ok u =>
              simp [dryRunOk, mnqCredentialDelete, mnqDeleteResolved, hpop, hname,
                hreg, hl, hdel, mutates, ApiCall.isMutating, Outcome.changedOf]
          | cons r2 rest2 =>
            simp [dryRunOk, mnqCredentialDelete, hpop, hname, hreg, hl, mutates,
              ApiCall.isMutating, Outcome.changedOf]
  · cases hreg : (ps1.pop "name").2.getItem "region" with
    | error e =>
      simp [dryRunOk, mnqCredentialDelete, hpop, hreg, mutates, Outcome.changedOf]
    | ok region =>
      cases hget : api.get_credential idv region with
      | error st =>
        simp [dryRunOk, mnqCredentialDelete, hpop, hreg, hget, mutates,
          ApiCall.isMutating, Outcome.changedOf]
      | ok r =>
        cases hdel : api.delete_credential r.id region with
        | error st =>
          simp [dryRunOk, mnqCredentialDelete, mnqDeleteResolved, hpop, hreg, hget,
            hdel, mutates, ApiCall.isMutating, Outcome.changedOf]
        | ok u =>
          simp [dryRunOk, mnqCredentialDelete, mnqDeleteResolved, hpop, hreg, hget,
            hdel, mutates, ApiCall.isMutating, Outcome.changedOf]

theorem dryRun_vpcgwCreate (api : VpcgwApi) (ps : Params) :
    dryRunOk (vpcgwPatRuleCreate api true ps) (vpcgwPatRuleCreate api false ps) := by
  rcases hpop : ps.pop "id" with ⟨v, ps'⟩
  rcases v with _ | idv
  · cases hc : api.create_pat_rule ps' with
    | error st =>
      simp [dryRunOk, vpcgwPatRuleCreate, hpop, hc, mutates, ApiCall.isMutating,
        Outcome.changedOf]
    | ok r =>
      simp [dryRunOk, vpcgwPatRuleCreate, hpop, hc, mutates, ApiCall.isMutating,
        Outcome.changedOf]
  · cases hget : api.get_pat_rule idv with
    | error st =>
      simp [dryRunOk, vpcgwPatRuleCreate, hpop, hget, mutates,
        ApiCall.isMutating, Outcome.changedOf]
    | ok r =>
      simp [dryRunOk, vpcgwPatRuleCreate, hpop, hget, mutates,
        ApiCall.isMutating, Outcome.changedOf]

theorem dryRun_vpcgwDelete (api : VpcgwApi) (ps : Params) :
    dryRunOk (vpcgwPatRuleDelete api true ps) (vpcgwPatRuleDelete api false ps) := by
  cases hid : ps.getItem "id" with
  | error e =>
    simp [dryRunOk, vpcgwPatRuleDelete, hid, mutates, Outcome.changedOf]
  | ok id? =>
    rcases id? with _ | idv
    · simp [dryRunOk, vpcgwPatRuleDelete, hid, mutates, Outcome.changedOf]
    · cases hget : api.get_pat_rule idv with
      | error st =>
        simp [dryRunOk, vpcgwPatRuleDelete, hid, hget, mutates,
          ApiCall.isMutating, Outcome.changedOf]
      | ok r =>
        cases hdel : api.delete_pat_rule r.id with
        | error st =>
          simp [dryRunOk, vpcgwPatRuleDelete, hid, hget, hdel, mutates,
            ApiCall.isMutating, Outcome.changedOf]
        | ok u =>
          simp [dryRunOk, vpcgwPatRuleDelete, hid, hget, hdel, mutates,
            ApiCall.isMutating, Outcome.changedOf]

/-- C2: for every resource kind and both actions, a check-mode (dry-run)
invocation issues zero create and zero delete calls to the provider API, and
whenever it exits with a `changed` flag, that flag equals whether the
corresponding real invocation (same parameters, same provider responses)
would issue a create or delete — `true` exactly when a mutation would occur,
`false` when the resource is already in the desired state. -/
theorem dry_run_frame (fapi : FnDomainApi) (iapi : IamApi) (mapi : MnqApi)
    (vapi : VpcgwApi) (ps : Params) :
    dryRunOk (functionDomainCreate fapi true ps) (functionDomainCreate fapi false ps) ∧
    dryRunOk (functionDomainDelete fapi true ps) (functionDomainDelete fapi false ps) ∧
    dryRunOk (iamApplicationCreate iapi true ps) (iamApplicationCreate iapi false ps) ∧
    dryRunOk (iamApplicationDelete iapi true ps) (iamApplicationDelete iapi false ps) ∧
    dryRunOk (mnqCredentialCreate mapi true ps) (mnqCredentialCreate mapi false ps) ∧
    dryRunOk (mnqCredentialDelete mapi true ps) (mnqCredentialDelete mapi false ps) ∧
    dryRunOk (vpcgwPatRuleCreate vapi true ps) (vpcgwPatRuleCreate vapi false ps) ∧
    dryRunOk (vpcgwPatRuleDelete vapi true ps) (vpcgwPatRuleDelete vapi false ps) :=
  ⟨dryRun_fnCreate fapi ps, dryRun_fnDelete fapi ps, dryRun_iamCreate iapi ps,
    dryRun_iamDelete iapi ps, dryRun_mnqCreate mapi ps, dryRun_mnqDelete mapi ps,
    dryRun_vpcgwCreate vapi ps, dryRun_vpcgwDelete vapi ps⟩

/-! ### Dictionary lemmas: behaviour of `pop` and `[...]` on a missing
key. -/

theorem Params.lookup_eq_none_of_not_hasKey (ps : Params) (k : String)
    (h : ps.hasKey k = false) : ps.lookup k = none := by
  have hf : ps.find? (fun kv => kv.1 == k) = none := by
    rw [List.find?_eq_none]
    intro a ha hpa
    have h3 : ps.any (fun kv => kv.1 == k) = true :=
      List.any_eq_true.mpr ⟨a, ha, hpa⟩
    rw [Params.hasKey] at h
    rw [h] at h3
    exact Bool.false_ne_true h3
  rw [Params.lookup, hf]

theorem Params.pop_of_not_hasKey (ps : Params) (k : String)
    (h : ps.hasKey k = false) : ps.pop k = (none, ps) := by
  rw [Params.pop, Params.lookup_eq_none_of_not_hasKey ps k h]

theorem Params.getItem_of_not_hasKey (ps : Params) (k : String)
    (h : ps.hasKey k = false) : ps.getItem k = .error (.keyError k) := by
  rw [Params.getItem, Params.lookup_eq_none_of_not_hasKey ps k h]

/-- C3 (code evaluated at the failing input): an `absent` invocation of
`scaleway_iam_application` whose explicit id misses at the provider does not
terminate with `changed=false`; the uncaught `ScalewayException` with status
404 from `get_application` escapes the module. -/
theorem iam_delete_notfound_raises :
    iamApplicationDelete iamApi404 false iamDelP =
      (.raised (.scwExc 404), [.getApplication (.str "a-1")]) ∧
    ¬ (iamApplicationDelete iamApi404 false iamDelP).1.changedOf = some false := by
  refine ⟨by decide, by decide⟩

/-- C4: whenever the name-based lookup of `scaleway_mnq_credential.delete`
matches more than one credential, the module exits non-fatally via
`exit_json` (default `changed=false`) with the informational
more-than-one-match message, and its trace contains no create and no delete
call. -/
theorem mnq_delete_ambiguous (api : MnqApi) (cm : Bool) (ps ps2 : Params)
    (namev : Val) (region : Option Val) (r1 r2 : Resource) (rest : List Resource)
    (hid : (ps.pop "id").1 = none)
    (hname : ((ps.pop "id").2).pop "name" = (some namev, ps2))
    (hreg : ps2.getItem "region" = .ok region)
    (hlist : api.list_credentials_all namev region = r1 :: r2 :: rest) :
    mnqCredentialDelete api cm ps =
      (.exitJson false none
          (some "More than one credential found with name \x7bname\x7d"),
        [.listCredentialsAll namev region]) ∧
    mutates (mnqCredentialDelete api cm ps).2 = false := by
  rcases hpop : ps.pop "id" with ⟨v, ps1⟩
  rw [hpop] at hid hname
  subst hid
  constructor <;>
    simp [mnqCredentialDelete, hpop, hname, hreg, hlist, mutates,
      ApiCall.isMutating]

/-- Witness for `mnq_delete_ambiguous`: on a provider holding two
credentials named `dup`, deleting by that name exits informationally with
no mutating call. -/
theorem mnq_delete_ambiguous_witness :
    mnqCredentialDelete mnqApiAmb false mnqDelP =
      (.exitJson false none
          (some "More than one credential found with name \x7bname\x7d"),
        [.listCredentialsAll (.str "dup") (some (.str "fr-par"))]) ∧
    mutates (mnqCredentialDelete mnqApiAmb false mnqDelP).2 = false :=
  mnq_delete_ambiguous mnqApiAmb false mnqDelP
    [("credential_id", none), ("namespace_id", some (.str "ns-1")),
      ("region", some (.str "fr-par")), ("permissions", none)]
    (.str "dup") (some (.str "fr-par")) ⟨"c-1", "dup", []⟩ ⟨"c-2", "dup", []⟩ []
    rfl rfl rfl rfl

/-- C5 counterexample: a provider-rejected create is not returned as an
outcome value — the `ScalewayException` (status 400) from
`create_application` escapes the module as an unhandled exception, and it is
not a `ConfigurationError` short-circuiting before a remote call (the create
call is in the trace). -/
theorem iam_create_rejected_raises :
    iamApplicationCreate iamApiReject false iamP =
      (.raised (.scwExc 400),
        [.createApplication [("description", some (.str "my app")),
          ("name", some (.str "app")), ("organization_id", none)]]) := by
  decide

/-- C5 amended: errors are not returned as outcome values — every failing
provider call, at every site of every module (the fetch `get` of the create
path, the create itself, the `get` of the delete path, the delete itself,
and the wait after a create), propagates out of the reconciler functions as
an unhandled exception, with exactly one caught case: a 404 from the
delete-poll of `scaleway_function_domain`, converted into the success
outcome (a wait failure on the create path raises whatever its status); the
missing-id configuration error is reported via `fail_json` before any
remote call. -/
theorem error_propagation_amended :
    ((∀ (api : FnDomainApi) (cm : Bool) (ps : Params) (idv : Val) (st : Nat),
        (ps.pop "id").1 = some idv → api.get_domain idv none = .error st →
        functionDomainCreate api cm ps =
          (.raised (.scwExc st), [.getDomain idv none])) ∧
      (∀ (api : FnDomainApi) (ps ps' : Params) (st : Nat),
        ps.pop "id" = (none, ps') → api.create_domain ps'.notNone = .error st →
        functionDomainCreate api false ps =
          (.raised (.scwExc st), [.createDomain ps'.notNone])) ∧
      (∀ (api : FnDomainApi) (ps ps' : Params) (r : Resource)
          (region : Option Val) (st : Nat),
        ps.pop "id" = (none, ps') → api.create_domain ps'.notNone = .ok r →
        ps'.getItem "region" = .ok region →
        api.wait_for_domain r.id region = .error st →
        functionDomainCreate api false ps =
          (.raised (.scwExc st),
            [.createDomain ps'.notNone, .waitForDomain r.id region])) ∧
      (∀ (api : FnDomainApi) (cm : Bool) (ps : Params) (idv : Val)
          (region : Option Val) (st : Nat),
        ps.getItem "id" = .ok (some idv) → ps.getItem "region" = .ok region →
        api.get_domain idv region = .error st →
        functionDomainDelete api cm ps =
          (.raised (.scwExc st), [.getDomain idv region])) ∧
      (∀ (api : FnDomainApi) (ps : Params) (idv : Val) (region : Option Val)
          (r : Resource) (st : Nat),
        ps.getItem "id" = .ok (some idv) → ps.getItem "region" = .ok region →
        api.get_domain idv region = .ok r →
        api.delete_domain r.id region = .error st →
        functionDomainDelete api false ps =
          (.raised (.scwExc st),
            [.getDomain idv region, .deleteDomain r.id region])) ∧
      (∀ (api : FnDomainApi) (ps : Params) (idv : Val) (region : Option Val)
          (r : Resource) (st : Nat),
        ps.getItem "id" = .ok (some idv) → ps.getItem "region" = .ok region →
        api.get_domain idv region = .ok r →
        api.delete_domain r.id region = .ok () →
        api.wait_for_domain r.id region = .error st → st ≠ 404 →
        functionDomainDelete api false ps =
          (.raised (.scwExc st),
            [.getDomain idv region, .deleteDomain r.id region,
              .waitForDomain r.id region]))) ∧
    ((∀ (api : IamApi) (cm : Bool) (ps : Params) (idv : Val) (st : Nat),
        (ps.pop "id").1 = some idv → api.get_application idv = .error st →
        iamApplicationCreate api cm ps =
          (.raised (.scwExc st), [.getApplication idv])) ∧
      (∀ (api : IamApi) (ps ps' : Params) (st : Nat),
        ps.pop "id" = (none, ps') → api.create_application ps' = .error st →
        iamApplicationCreate api false ps =
          (.raised (.scwExc st), [.createApplication ps'])) ∧
      (∀ (api : IamApi) (cm : Bool) (ps : Params) (idv : Val) (n : Option Val)
          (st : Nat),
        ps.getItem "id" = .ok (some idv) → ps.getItem "name" = .ok n →
        api.get_application idv = .error st →
        iamApplicationDelete api cm ps =
          (.raised (.scwExc st), [.getApplication idv])) ∧
      (∀ (api : IamApi) (ps : Params) (idv : Val) (n : Option Val)
          (r : Resource) (st : Nat),
        ps.getItem "id" = .ok (some idv) → ps.getItem "name" = .ok n →
        api.get_application idv = .ok r →
        api.delete_application r.id = .error st →
        iamApplicationDelete api false ps =
          (.raised (.scwExc st),
            [.getApplication idv, .deleteApplication r.id]))) ∧
    ((∀ (api : MnqApi) (cm : Bool) (ps : Params) (idv : Val) (st : Nat),
        (ps.pop "id").1 = some idv → api.get_credential idv none = .error st →
        mnqCredentialCreate api cm ps =
          (.raised (.scwExc st), [.getCredential idv none])) ∧
      (∀ (api : MnqApi) (ps ps' : Params) (st : Nat),
        ps.pop "id" = (none, ps') → api.create_credential ps'.notNone = .error st →
        mnqCredentialCreate api false ps =
          (.raised (.scwExc st), [.createCredential ps'.notNone])) ∧
      (∀ (api : MnqApi) (cm : Bool) (ps : Params) (idv : Val)
          (region : Option Val) (st : Nat),
        (ps.pop "id").1 = some idv →
        (((ps.pop "id").2).pop "name").2.getItem "region" = .ok region →
        api.get_credential idv region = .error st →
        mnqCredentialDelete api cm ps =
          (.raised (.scwExc st), [.getCredential idv region])) ∧
      (∀ (api : MnqApi) (ps : Params) (r : Resource) (pre : List ApiCall)
          (region : Option Val) (st : Nat),
        ps.getItem "region" = .ok region →
        api.delete_credential r.id region = .error st →
        mnqDeleteResolved api false ps r pre =
          (.raised (.scwExc st), pre ++ [.deleteCredential r.id region]))) ∧
    ((∀ (api : VpcgwApi) (cm : Bool) (ps : Params) (idv : Val) (st : Nat),
        (ps.pop "id").1 = some idv → api.get_pat_rule idv = .error st →
        vpcgwPatRuleCreate api cm ps =
          (.raised (.scwExc st), [.getPatRule idv])) ∧
      (∀ (api : VpcgwApi) (ps ps' : Params) (st : Nat),
        ps.pop "id" = (none, ps') → api.create_pat_rule ps' = .error st →
        vpcgwPatRuleCreate api false ps =
          (.raised (.scwExc st), [.createPatRule ps'])) ∧
      (∀ (api : VpcgwApi) (cm : Bool) (ps : Params) (idv : Val) (st : Nat),
        ps.getItem "id" = .ok (some idv) → api.get_pat_rule idv = .error st →
        vpcgwPatRuleDelete api cm ps =
          (.raised (.scwExc st), [.getPatRule idv])) ∧
      (∀ (api : VpcgwApi) (ps : Params) (idv : Val) (r : Resource) (st : Nat),
        ps.getItem "id" = .ok (some idv) → api.get_pat_rule idv = .ok r →
        api.delete_pat_rule r.id = .error st →
        vpcgwPatRuleDelete api false ps =
          (.raised (.scwExc st), [.getPatRule idv, .deletePatRule r.id]))) ∧
    ((∀ (api : FnDomainApi) (ps : Params) (idv : Val) (region : Option Val)
          (r : Resource),
        ps.getItem "id" = .ok (some idv) → ps.getItem "region" = .ok region →
        api.get_domain idv region = .ok r →
        api.delete_domain r.id region = .ok () →
        api.wait_for_domain r.id region = .error 404 →
        functionDomainDelete api false ps =
          (.exitJson true none
              (some ("function\x27s domain " ++ r.id ++ " deleted")),
            [.getDomain idv region, .deleteDomain r.id region,
              .waitForDomain r.id region])) ∧
      (∀ (api : VpcgwApi) (cm : Bool) (ps : Params),
        ps.getItem "id" = .ok none →
        vpcgwPatRuleDelete api cm ps = (.failJson "id is required", []))) := by
  refine ⟨⟨?_, ?_, ?_, ?_, ?_, ?_⟩, ⟨?_, ?_, ?_, ?_⟩, ⟨?_, ?_, ?_, ?_⟩,
    ⟨?_, ?_, ?_, ?_⟩, ⟨?_, ?_⟩⟩
  · intro api cm ps idv st hpop hget
    rcases hp : ps.pop "id" with ⟨v, ps1⟩
    rw [hp] at hpop
    subst hpop
    simp [functionDomainCreate, hp, hget]
  · intro api ps ps' st hpop hc
    simp [functionDomainCreate, hpop, hc]
  · intro api ps ps' r region st hpop hc hr hw
    simp [functionDomainCreate, hpop, hc, hr, hw]
  · intro api cm ps idv region st hid hreg hget
    simp [functionDomainDelete, hid, hreg, hget]
  · intro api ps idv region r st hid hreg hget hdel
    simp [functionDomainDelete, hid, hreg, hget, hdel]
  · intro api ps idv region r st hid hreg hget hdel hw hne
    simp [functionDomainDelete, hid, hreg, hget, hdel, hw, hne]
  · intro api cm ps idv st hpop hget
    rcases hp : ps.pop "id" with ⟨v, ps1⟩
    rw [hp] at hpop
    subst hpop
    simp [iamApplicationCreate, hp, hget]
  · intro api ps ps' st hpop hc
    simp [iamApplicationCreate, hpop, hc]
  · intro api cm ps idv n st hid hname hget
    simp [iamApplicationDelete, hid, hname, hget]
  · intro api ps idv n r st hid hname hget hdel
    simp [iamApplicationDelete, hid, hname, hget, hdel]
  · intro api cm ps idv st hpop hget
    rcases hp : ps.pop "id" with ⟨v, ps1⟩
    rw [hp] at hpop
    subst hpop
    simp [mnqCredentialCreate, hp, hget]
  · intro api ps ps' st hpop hc
    simp [mnqCredentialCreate, hpop, hc]
  · intro api cm ps idv region st hpop hreg hget
    rcases hp : ps.pop "id" with ⟨v, ps1⟩
    rw [hp] at hpop hreg
    subst hpop
    simp [mnqCredentialDelete, hp, hreg, hget]
  · intro api ps r pre region st hreg hdel
    simp [mnqDeleteResolved, hreg, hdel]
  · intro api cm ps idv st hpop hget
    rcases hp : ps.pop "id" with ⟨v, ps1⟩
    rw [hp] at hpop
    subst hpop
    simp [vpcgwPatRuleCreate, hp, hget]
  · intro api ps ps' st hpop hc
    simp [vpcgwPatRuleCreate, hpop, hc]
  · intro api cm ps idv st hid hget
    simp [vpcgwPatRuleDelete, hid, hget]
  · intro api ps idv r st hid hget hdel
    simp [vpcgwPatRuleDelete, hid, hget, hdel]
  · intro api ps idv region r hid hreg hget hdel hw
    simp [functionDomainDelete, hid, hreg, hget, hdel, hw]
  · intro api cm ps hid
    simp [vpcgwPatRuleDelete, hid]

/-- Witness for `error_propagation_amended`: every raise-site conjunct, the
caught delete-poll 404 and the configuration error instantiated at concrete
providers and parameter sets. -/
theorem error_propagation_amended_witness :
    functionDomainCreate fnApiErr true fnDelP =
      (.raised (.scwExc 500), [.getDomain (.str "d-1") none]) ∧
    functionDomainCreate fnApiErr false fnModuleP =
      (.raised (.scwExc 501), [.createDomain fnModuleP.notNone]) ∧
    functionDomainCreate fnApiStuck false fnModuleP =
      (.raised (.scwExc 502),
        [.createDomain fnModuleP.notNone,
          .waitForDomain "d-1" (some (.str "fr-par"))]) ∧
    functionDomainDelete fnApiErr false fnDelP =
      (.raised (.scwExc 500), [.getDomain (.str "d-1") (some (.str "fr-par"))]) ∧
    functionDomainDelete fnApiDelRej false fnDelP =
      (.raised (.scwExc 503),
        [.getDomain (.str "d-1") (some (.str "fr-par")),
          .deleteDomain "d-1" (some (.str "fr-par"))]) ∧
    functionDomainDelete fnApiStuck false fnDelP =
      (.raised (.scwExc 502),
        [.getDomain (.str "d-1") (some (.str "fr-par")),
          .deleteDomain "d-1" (some (.str "fr-par")),
          .waitForDomain "d-1" (some (.str "fr-par"))]) ∧
    iamApplicationCreate iamApi404 true iamDelP =
      (.raised (.scwExc 404), [.getApplication (.str "a-1")]) ∧
    iamApplicationCreate iamApiReject false iamP =
      (.raised (.scwExc 400),
        [.createApplication [("description", some (.str "my app")),
          ("name", some (.str "app")), ("organization_id", none)]]) ∧
    iamApplicationDelete iamApi404 true iamDelP =
      (.raised (.scwExc 404), [.getApplication (.str "a-1")]) ∧
    iamApplicationDelete iamApiDelRej false iamDelP =
      (.raised (.scwExc 403),
        [.getApplication (.str "a-1"), .deleteApplication "a-1"]) ∧
    mnqCredentialCreate mnqApiAmb true mnqIdP =
      (.raised (.scwExc 404), [.getCredential (.str "c-1") none]) ∧
    mnqCredentialCreate mnqApiAmb false mnqNoNameP =
      (.raised (.scwExc 500), [.createCredential mnqNoNameP.notNone]) ∧
    mnqCredentialDelete mnqApiAmb false mnqIdP =
      (.raised (.scwExc 404),
        [.getCredential (.str "c-1") (some (.str "fr-par"))]) ∧
    mnqDeleteResolved mnqApiDelRej false mnqNoNameP ⟨"c-1", "dup", []⟩ [] =
      (.raised (.scwExc 403), [] ++ [.deleteCredential "c-1" none]) ∧
    vpcgwPatRuleCreate vpcgwApiErr true vpcgwIdP =
      (.raised (.scwExc 500), [.getPatRule (.str "p-1")]) ∧
    vpcgwPatRuleCreate vpcgwApiErr false vpcgwP =
      (.raised (.scwExc 501), [.createPatRule (vpcgwP.pop "id").2]) ∧
    vpcgwPatRuleDelete vpcgwApiErr false vpcgwIdP =
      (.raised (.scwExc 500), [.getPatRule (.str "p-1")]) ∧
    vpcgwPatRuleDelete vpcgwApiDelRej false vpcgwIdP =
      (.raised (.scwExc 403),
        [.getPatRule (.str "p-1"), .deletePatRule "p-1"]) ∧
    functionDomainDelete fnApiDel404 false fnDelP =
      (.exitJson true none
          (some ("function\x27s domain " ++ "d-1" ++ " deleted")),
        [.getDomain (.str "d-1") (some (.str "fr-par")),
          .deleteDomain "d-1" (some (.str "fr-par")),
          .waitForDomain "d-1" (some (.str "fr-par"))]) ∧
    vpcgwPatRuleDelete vpcgwApi0 false vpcgwP = (.failJson "id is required", []) :=
  ⟨error_propagation_amended.1.1 fnApiErr true fnDelP (.str "d-1") 500 rfl rfl,
    error_propagation_amended.1.2.1 fnApiErr fnModuleP fnModuleP 501 rfl rfl,
    error_propagation_amended.1.2.2.1 fnApiStuck fnModuleP fnModuleP
      ⟨"d-1", "", []⟩ (some (.str "fr-par")) 502 rfl rfl rfl rfl,
    error_propagation_amended.1.2.2.2.1 fnApiErr false fnDelP (.str "d-1")
      (some (.str "fr-par")) 500 rfl rfl rfl,
    error_propagation_amended.1.2.2.2.2.1 fnApiDelRej fnDelP (.str "d-1")
      (some (.str "fr-par")) ⟨"d-1", "", []⟩ 503 rfl rfl rfl rfl,
    error_propagation_amended.1.2.2.2.2.2 fnApiStuck fnDelP (.str "d-1")
      (some (.str "fr-par")) ⟨"d-1", "", []⟩ 502 rfl rfl rfl rfl rfl
      (by decide),
    error_propagation_amended.2.1.1 iamApi404 true iamDelP (.str "a-1") 404
      rfl rfl,
    error_propagation_amended.2.1.2.1 iamApiReject iamP
      [("description", some (.str "my app")), ("name", some (.str "app")),
        ("organization_id", none)] 400 rfl rfl,
    error_propagation_amended.2.1.2.2.1 iamApi404 true iamDelP (.str "a-1")
      none 404 rfl rfl rfl,
    error_propagation_amended.2.1.2.2.2 iamApiDelRej iamDelP (.str "a-1")
      none ⟨"a-1", "app", []⟩ 403 rfl rfl rfl rfl,
    error_propagation_amended.2.2.1.1 mnqApiAmb true mnqIdP (.str "c-1") 404
      rfl rfl,
    error_propagation_amended.2.2.1.2.1 mnqApiAmb mnqNoNameP mnqNoNameP 500
      rfl rfl,
    error_propagation_amended.2.2.1.2.2.1 mnqApiAmb false mnqIdP (.str "c-1")
      (some (.str "fr-par")) 404 rfl rfl rfl,
    error_propagation_amended.2.2.1.2.2.2 mnqApiDelRej mnqNoNameP
      ⟨"c-1", "dup", []⟩ [] none 403 rfl rfl,
    error_propagation_amended.2.2.2.1.1 vpcgwApiErr true vpcgwIdP
      (.str "p-1") 500 rfl rfl,
    error_propagation_amended.2.2.2.1.2.1 vpcgwApiErr vpcgwP
      (vpcgwP.pop "id").2 501 rfl rfl,
    error_propagation_amended.2.2.2.1.2.2.1 vpcgwApiErr false vpcgwIdP
      (.str "p-1") 500 rfl rfl,
    error_propagation_amended.2.2.2.1.2.2.2 vpcgwApiDelRej vpcgwIdP
      (.str "p-1") ⟨"p-1", "", []⟩ 403 rfl rfl rfl,
    error_propagation_amended.2.2.2.2.1 fnApiDel404 fnDelP (.str "d-1")
      (some (.str "fr-par")) ⟨"d-1", "", []⟩ rfl rfl rfl rfl rfl,
    error_propagation_amended.2.2.2.2.2 vpcgwApi0 false vpcgwP rfl⟩

/-- C6 counterexample: `scaleway_vpcgw_pat_rule.create` forwards
`**module.params` without filtering `None` values, so the omitted `zone`
attribute is passed to the create call of the provider as an explicit
`None`-valued entry. -/
theorem vpcgw_create_passes_none_valued :
    (vpcgwPatRuleCreate vpcgwApi0 false vpcgwP).2 =
      [.createPatRule (vpcgwP.pop "id").2] ∧
    ("zone", (none : Option Val)) ∈ (vpcgwP.pop "id").2 := by
  refine ⟨by decide, by decide⟩

/-- C6 amended: `scaleway_function_domain` and `scaleway_mnq_credential`
invoke create with exactly the non-`None` attributes, while
`scaleway_iam_application` and `scaleway_vpcgw_pat_rule` invoke create with
the entire remaining parameter mapping, `None`-valued (omitted) attributes
included. -/
theorem create_kwargs_amended :
    (∀ (api : FnDomainApi) (ps ps' : Params), ps.pop "id" = (none, ps') →
        ∃ rest, (functionDomainCreate api false ps).2 =
          .createDomain ps'.notNone :: rest) ∧
    (∀ (api : MnqApi) (ps ps' : Params), ps.pop "id" = (none, ps') →
        (mnqCredentialCreate api false ps).2 = [.createCredential ps'.notNone]) ∧
    (∀ (api : IamApi) (ps ps' : Params), ps.pop "id" = (none, ps') →
        (iamApplicationCreate api false ps).2 = [.createApplication ps']) ∧
    (∀ (api : VpcgwApi) (ps ps' : Params), ps.pop "id" = (none, ps') →
        (vpcgwPatRuleCreate api false ps).2 = [.createPatRule ps']) := by
  refine ⟨?_, ?_, ?_, ?_⟩
  · intro api ps ps' hpop
    cases hc : api.create_domain ps'.notNone with
    | error st => exact ⟨[], by simp [functionDomainCreate, hpop, hc]⟩
    | ok r =>
      cases hr : ps'.getItem "region" with
      | error e => exact ⟨[], by simp [functionDomainCreate, hpop, hc, hr]⟩
      | ok region =>
        cases hw : api.wait_for_domain r.id region with
        | error st =>
          exact ⟨[.waitForDomain r.id region],
            by simp [functionDomainCreate, hpop, hc, hr, hw]⟩
        | ok r2 =>
          exact ⟨[.waitForDomain r.id region],
            by simp [functionDomainCreate, hpop, hc, hr, hw]⟩
  · intro api ps ps' hpop
    cases hc : api.create_credential ps'.notNone with
    | error st => simp [mnqCredentialCreate, hpop, hc]
    | ok r => simp [mnqCredentialCreate, hpop, hc]
  · intro api ps ps' hpop
    cases hc : api.create_application ps' with
    | error st => simp [iamApplicationCreate, hpop, hc]
    | ok r => simp [iamApplicationCreate, hpop, hc]
  · intro api ps ps' hpop
    cases hc : api.create_pat_rule ps' with
    | error st => simp [vpcgwPatRuleCreate, hpop, hc]
    | ok r => simp [vpcgwPatRuleCreate, hpop, hc]

/-- Witness for `create_kwargs_amended` at concrete providers and parameter
sets for all four kinds. -/
theorem create_kwargs_amended_witness :
    (∃ rest, (functionDomainCreate fnApiDel404 false fnModuleP).2 =
        .createDomain fnModuleP.notNone :: rest) ∧
    (mnqCredentialCreate mnqApiAmb false mnqNoNameP).2 =
      [.createCredential mnqNoNameP.notNone] ∧
    (iamApplicationCreate iamApiReject false iamP).2 =
      [.createApplication [("description", some (.str "my app")),
        ("name", some (.str "app")), ("organization_id", none)]] ∧
    (vpcgwPatRuleCreate vpcgwApi0 false vpcgwP).2 =
      [.createPatRule (vpcgwP.pop "id").2] :=
  ⟨create_kwargs_amended.1 fnApiDel404 fnModuleP fnModuleP rfl,
    create_kwargs_amended.2.1 mnqApiAmb mnqNoNameP mnqNoNameP rfl,
    create_kwargs_amended.2.2.1 iamApiReject iamP
      [("description", some (.str "my app")), ("name", some (.str "app")),
        ("organization_id", none)] rfl,
    create_kwargs_amended.2.2.2 vpcgwApi0 vpcgwP (vpcgwP.pop "id").2 rfl⟩

/-- C7: once `scaleway_function_domain.delete` has resolved an existing
domain and the provider delete succeeded, the module issues the
wait-for-disappearance poll; a 404 from that poll is the expected terminal
success — the module exits with `changed=true` and a message containing the
id of the deleted domain — while any other error status from the poll is
re-raised as a failure. -/
theorem fn_delete_poll_absent (api : FnDomainApi) (ps : Params)
    (idv : Val) (region : Option Val) (r : Resource)
    (hid : ps.getItem "id" = .ok (some idv))
    (hreg : ps.getItem "region" = .ok region)
    (hget : api.get_domain idv region = .ok r)
    (hdel : api.delete_domain r.id region = .ok ()) :
    (∀ st, api.wait_for_domain r.id region = .error st → st ≠ 404 →
      functionDomainDelete api false ps =
        (.raised (.scwExc st),
          [.getDomain idv region, .deleteDomain r.id region,
            .waitForDomain r.id region])) ∧
    (api.wait_for_domain r.id region = .error 404 →
      functionDomainDelete api false ps =
        (.exitJson true none
            (some ("function\x27s domain " ++ r.id ++ " deleted")),
          [.getDomain idv region, .deleteDomain r.id region,
            .waitForDomain r.id region])) ∧
    (∃ pre post,
      ("function\x27s domain " ++ r.id ++ " deleted") = pre ++ r.id ++ post) := by
  refine ⟨?_, ?_, ⟨"function\x27s domain ", " deleted", rfl⟩⟩
  · intro st hw hne
    simp [functionDomainDelete, hid, hreg, hget, hdel, hw, hne]
  · intro hw
    simp [functionDomainDelete, hid, hreg, hget, hdel, hw]

/-- Witness for `fn_delete_poll_absent`: deleting domain `d-1` on a provider
whose post-delete poll reports 404 exits with `changed=true` and the
confirmation message naming `d-1`. -/
theorem fn_delete_poll_absent_witness :
    functionDomainDelete fnApiDel404 false fnDelP =
      (.exitJson true none
          (some ("function\x27s domain " ++ "d-1" ++ " deleted")),
        [.getDomain (.str "d-1") (some (.str "fr-par")),
          .deleteDomain "d-1" (some (.str "fr-par")),
          .waitForDomain "d-1" (some (.str "fr-par"))]) :=
  (fn_delete_poll_absent fnApiDel404 fnDelP (.str "d-1") (some (.str "fr-par"))
    ⟨"d-1", "", []⟩ rfl rfl rfl rfl).2.1 rfl

/-- C8 counterexample: an `absent` invocation of `scaleway_function_domain`
with no identity supplied does not fail with the configuration error — the
subscript lookup `module.params["id"]` raises an uncaught `KeyError` first
(still before any provider call). -/
theorem fn_delete_no_identity_not_config_error :
    functionDomainDelete fnApiDel404 false fnNoIdP =
      (.raised (.keyError "id"), []) ∧
    ¬ functionDomainDelete fnApiDel404 false fnNoIdP =
      (.failJson "id is required", []) := by
  refine ⟨by decide, by decide⟩

/-- C8 amended: a delete with no resolvable identity makes no provider call
and terminates immediately — via the `fail_json` configuration error
`"id is required"` for `scaleway_vpcgw_pat_rule`, `scaleway_iam_application`
and `scaleway_mnq_credential`, but via an uncaught `KeyError` for
`scaleway_function_domain`, whose parameter dict never contains the `"id"`
key the code subscripts. -/
theorem delete_without_identity_amended :
    (∀ (api : VpcgwApi) (cm : Bool) (ps : Params),
        ps.getItem "id" = .ok none →
        vpcgwPatRuleDelete api cm ps = (.failJson "id is required", [])) ∧
    (∀ (api : IamApi) (cm : Bool) (ps : Params) (n : Option Val),
        ps.getItem "id" = .ok none → ps.getItem "name" = .ok n →
        iamApplicationDelete api cm ps = (.failJson "id is required", [])) ∧
    (∀ (api : MnqApi) (cm : Bool) (ps : Params),
        (ps.pop "id").1 = none → (((ps.pop "id").2).pop "name").1 = none →
        mnqCredentialDelete api cm ps = (.failJson "id is required", [])) ∧
    (∀ (api : FnDomainApi) (cm : Bool) (ps : Params),
        ps.hasKey "id" = false →
        functionDomainDelete api cm ps = (.raised (.keyError "id"), [])) := by
  refine ⟨?_, ?_, ?_, ?_⟩
  · intro api cm ps hid
    simp [vpcgwPatRuleDelete, hid]
  · intro api cm ps n hid hname
    simp [iamApplicationDelete, hid, hname]
  · intro api cm ps hid hname
    rcases hpop : ps.pop "id" with ⟨v, ps1⟩
    rw [hpop] at hid hname
    subst hid
    rcases hpopn : ps1.pop "name" with ⟨n, ps2⟩
    rw [hpopn] at hname
    subst hname
    simp [mnqCredentialDelete, hpop, hpopn]
  · intro api cm ps h
    simp [functionDomainDelete, Params.getItem_of_not_hasKey ps "id" h]

/-- Witness for `delete_without_identity_amended` at concrete parameter sets
for all four kinds. -/
theorem delete_without_identity_amended_witness :
    vpcgwPatRuleDelete vpcgwApi0 true vpcgwP = (.failJson "id is required", []) ∧
    iamApplicationDelete iamApi404 true iamP = (.failJson "id is required", []) ∧
    mnqCredentialDelete mnqApiAmb true mnqNoNameP =
      (.failJson "id is required", []) ∧
    functionDomainDelete fnApiDel404 false fnNoIdP =
      (.raised (.keyError "id"), []) :=
  ⟨delete_without_identity_amended.1 vpcgwApi0 true vpcgwP rfl,
    delete_without_identity_amended.2.1 iamApi404 true iamP
      (some (.str "app")) rfl rfl,
    delete_without_identity_amended.2.2.1 mnqApiAmb true mnqNoNameP rfl rfl,
    delete_without_identity_amended.2.2.2 fnApiDel404 false fnNoIdP (by decide)⟩

/-- C9: in `scaleway_function_domain` and `scaleway_mnq_credential` the
parameter dict of a real invocation has no `"id"` key (the declared identity
parameters are `domain_id` and `credential_id`), so the present path's
fetch-existing branch is unreachable: outside check mode the trace contains
no fetch call and starts with the create call — regardless of the provider
state, i.e. for every provider oracle. -/
theorem present_fetch_unreachable (fapi : FnDomainApi) (mapi : MnqApi)
    (ps : Params) (h : ps.hasKey "id" = false) :
    ((functionDomainCreate fapi false ps).2.any ApiCall.isFetch = false) ∧
    (∃ rest, (functionDomainCreate fapi false ps).2 =
      .createDomain ps.notNone :: rest) ∧
    ((mnqCredentialCreate mapi false ps).2.any ApiCall.isFetch = false) ∧
    ((mnqCredentialCreate mapi false ps).2 = [.createCredential ps.notNone]) := by
  have hpop : ps.pop "id" = (none, ps) := Params.pop_of_not_hasKey ps "id" h
  refine ⟨?_, ?_, ?_, ?_⟩
  · cases hc : fapi.create_domain ps.notNone with
    | error st => simp [functionDomainCreate, hpop, hc, ApiCall.isFetch]
    | ok r =>
      cases hr : ps.getItem "region" with
      | error e => simp [functionDomainCreate, hpop, hc, hr, ApiCall.isFetch]
      | ok region =>
        cases hw : fapi.wait_for_domain r.id region with
        | error st => simp [functionDomainCreate, hpop, hc, hr, hw, ApiCall.isFetch]
        | ok r2 => simp [functionDomainCreate, hpop, hc, hr, hw, ApiCall.isFetch]
  · exact create_kwargs_amended.1 fapi ps ps hpop
  · cases hc : mapi.create_credential ps.notNone with
    | error st => simp [mnqCredentialCreate, hpop, hc, ApiCall.isFetch]
    | ok r => simp [mnqCredentialCreate, hpop, hc, ApiCall.isFetch]
  · exact create_kwargs_amended.2.1 mapi ps ps hpop

/-- Witness for `present_fetch_unreachable`: with `domain_id` supplied and a
provider that does hold that domain (every get succeeds), the create call is
still attempted and no fetch is issued. -/
theorem present_fetch_unreachable_witness :
    ((functionDomainCreate fnApiDel404 false fnModuleP).2.any ApiCall.isFetch =
      false) ∧
    (∃ rest, (functionDomainCreate fnApiDel404 false fnModuleP).2 =
      .createDomain fnModuleP.notNone :: rest) ∧
    ((mnqCredentialCreate mnqApiAmb false mnqNoNameP).2.any ApiCall.isFetch =
      false) ∧
    ((mnqCredentialCreate mnqApiAmb false mnqNoNameP).2 =
      [.createCredential mnqNoNameP.notNone]) :=
  ⟨(present_fetch_unreachable fnApiDel404 mnqApiAmb fnModuleP (by decide)).1,
    (present_fetch_unreachable fnApiDel404 mnqApiAmb fnModuleP (by decide)).2.1,
    (present_fetch_unreachable fnApiDel404 mnqApiAmb mnqNoNameP (by decide)).2.2.1,
    (present_fetch_unreachable fnApiDel404 mnqApiAmb mnqNoNameP (by decide)).2.2.2⟩

/-- C10: every `absent` invocation of `scaleway_function_domain` — whose
parameter dict, built from the declared argument spec, has no `"id"` key —
terminates with an uncaught `KeyError` at `module.params["id"]`, in either
check mode, before the documented `"id is required"` failure and before any
provider call (the trace is empty). -/
theorem fn_delete_always_keyerror (api : FnDomainApi) (cm : Bool) (ps : Params)
    (h : ps.hasKey "id" = false) :
    functionDomainDelete api cm ps = (.raised (.keyError "id"), []) := by
  simp [functionDomainDelete, Params.getItem_of_not_hasKey ps "id" h]

/-- Witness for `fn_delete_always_keyerror` at the actual declared parameter
set of the module (in check mode, with a provider holding the domain). -/
theorem fn_delete_always_keyerror_witness :
    functionDomainDelete fnApiDel404 true fnModuleP =
      (.raised (.keyError "id"), []) :=
  fn_delete_always_keyerror fnApiDel404 true fnModuleP (by decide)

end Scaleway
